import Mathlib

/-!
Shallow embedding of the credential-resolution logic of
`barbicanclient/barbican.py` (the `Barbican` CLI application class).

Option fields are modelled as plain strings with `""` standing for an
unset value, matching Python truthiness of the argparse values (each
option defaults to an environment lookup that yields the empty string
when the variable is absent).  The boolean flags `no_auth` and
`insecure` are modelled as `Bool`.

`initialize_app` below is a line-by-line translation of
`Barbican.initialize_app`; the external collaborators (keystone
credential constructors, `session.Session`, `client.Client`) are
modelled as inert constructors recording exactly the data the source
passes to them.
-/

namespace Barbican

/-- `_DEFAULT_IDENTITY_API_VERSION = '3.0'` (barbican.py:32). -/
def DEFAULT_IDENTITY_API_VERSION : String := "3.0"

/-- The resolved option record (`self.options`), one field per CLI
option registered in `build_option_parser`, plus `insecure` registered
by `session.Session.register_cli_options`. `""` means unset. -/
structure Options where
  no_auth : Bool := false
  os_identity_api_version : String := ""
  os_auth_url : String := ""
  os_username : String := ""
  os_user_id : String := ""
  os_password : String := ""
  os_user_domain_id : String := ""
  os_user_domain_name : String := ""
  os_tenant_name : String := ""
  os_tenant_id : String := ""
  os_project_id : String := ""
  os_project_name : String := ""
  os_project_domain_id : String := ""
  os_project_domain_name : String := ""
  os_auth_token : String := ""
  endpoint : String := ""
  insecure : Bool := false
deriving Repr, DecidableEq

/-- Python truthiness of an option value: a string is truthy iff non-empty. -/
def truthy (s : String) : Bool := !(s == "")

/-- Python `a or b` on strings: the first operand when truthy, else the second. -/
def pyOr (a b : String) : String := if truthy a then a else b

/-- The version test `not api_version or api_version == _DEFAULT_IDENTITY_API_VERSION`
used at barbican.py:151, 170, 226 and 248. -/
def isDefaultOrV3 (v : String) : Bool := !truthy v || v == DEFAULT_IDENTITY_API_VERSION

/-- The configuration errors raised by `initialize_app` and its helpers,
one constructor per distinct `Exception` message. -/
inductive ConfigError where
  /-- "ERROR: argument --os-auth-url (-A): not allowed with argument --no-auth (-N)" -/
  | conflictingOptions
  /-- "ERROR: please specify --endpoint and --os-project-id(or --os-tenant-id)" -/
  | missingEndpointOrProjectId
  /-- "ERROR: please specify --os-auth-url" -/
  | missingAuthUrl
  /-- "ERROR: please specify the following --os-project-id or --os-project-name
  and --os-project-domain-name or --os-project-name and --os-project-domain-id" -/
  | missingV3Combination
  /-- "ERROR: please specify --os-tenant-id or --os-tenant-name" -/
  | missingV2Combination
  /-- "ERROR: please specify authentication credentials" -/
  | missingCredentials
deriving Repr, DecidableEq

/-- The keystone credential constructors, recording the keyword set the
source passes to them (`identity.v3.Token`, `identity.v2.Token`,
`identity.v3.Password`, `identity.v2.Password`). -/
inductive Auth where
  | v3Token (kwargs : List (String × String))
  | v2Token (kwargs : List (String × String))
  | v3Password (kwargs : List (String × String))
  | v2Password (kwargs : List (String × String))
deriving Repr, DecidableEq

/-- `session.Session(auth=..., verify=...)`. -/
structure Session where
  auth : Auth
  verify : Bool
deriving Repr, DecidableEq

/-- The two shapes of `client.Client(...)` call made by `initialize_app`. -/
inductive ClientHandle where
  /-- `client.Client(endpoint=..., project_id=..., verify=...)` (no-auth branch). -/
  | direct (endpoint : String) (project_id : String) (verify : Bool)
  /-- `client.Client(session=..., endpoint=...)`. -/
  | withSession (s : Session) (endpoint : String)
deriving Repr, DecidableEq

/-- Outcome of `initialize_app`: either the constructed client, or a raised
`ConfigError` together with whether usage text was written to stderr first. -/
inductive ResolveResult where
  | ok (c : ClientHandle)
  | err (e : ConfigError) (usageWritten : Bool)
deriving Repr, DecidableEq

/-- The v3 combination list of `_check_auth_arguments` (barbican.py:143-147):
`[os_project_id, os_project_name and os_project_domain_name,
os_project_name and os_project_domain_id]`, as a truthiness test. -/
def v3_arg_combinations (args : Options) : Bool :=
  truthy args.os_project_id ||
  (truthy args.os_project_name && truthy args.os_project_domain_name) ||
  (truthy args.os_project_name && truthy args.os_project_domain_id)

/-- The v2 combination list of `_check_auth_arguments` (barbican.py:148):
`[os_tenant_id, os_tenant_name]`, as a truthiness test. -/
def v2_arg_combinations (args : Options) : Bool :=
  truthy args.os_tenant_id || truthy args.os_tenant_name

/-- `_check_auth_arguments(args, api_version, raise_exc=True)`
(barbican.py:131-167): succeeds, or raises the version-specific message. -/
def check_auth_arguments (args : Options) (api_version : String) :
    Except ConfigError Unit :=
  if isDefaultOrV3 api_version then
    if v3_arg_combinations args then Except.ok ()
    else Except.error ConfigError.missingV3Combination
  else
    if v2_arg_combinations args then Except.ok ()
    else Except.error ConfigError.missingV2Combination

/-- The final filter of `_build_kwargs_based_on_version` (barbican.py:186):
keep only the entries whose value is truthy. -/
def filterTruthy (kwargs : List (String × String)) : List (String × String) :=
  kwargs.filter (fun kv => truthy kv.2)

/-- `_build_kwargs_based_on_version(args, api_version)` (barbican.py:169-186).
The v3 branch is transcribed exactly as written in the source: the
`project_domain_id` entry reads `args.os_project_id` and the
`project_domain_name` entry reads `args.os_project_name`
(barbican.py:176-177). -/
def build_kwargs_based_on_version (args : Options) (api_version : String) :
    List (String × String) :=
  if isDefaultOrV3 api_version then
    filterTruthy [
      ("project_id", args.os_project_id),
      ("project_name", args.os_project_name),
      ("user_domain_id", args.os_user_domain_id),
      ("user_domain_name", args.os_user_domain_name),
      ("project_domain_id", args.os_project_id),
      ("project_domain_name", args.os_project_name)]
  else
    filterTruthy [
      ("tenant_name", args.os_tenant_name),
      ("tenant_id", args.os_tenant_id)]

/-- A conditional keyword entry: `if v: kwargs[key] = v` (password branch). -/
def optAdd (key v : String) : List (String × String) :=
  if truthy v then [(key, v)] else []

/-- The guard of the password branch (barbican.py:237-239):
`all([os_auth_url, os_user_id or os_username, os_password,
os_tenant_name or os_tenant_id or os_project_name or os_project_id])`. -/
def password_guard (args : Options) : Bool :=
  truthy args.os_auth_url &&
  (truthy args.os_user_id || truthy args.os_username) &&
  truthy args.os_password &&
  (truthy args.os_tenant_name || truthy args.os_tenant_id ||
   truthy args.os_project_name || truthy args.os_project_id)

/-- The authentication mode derived from the `if/elif` chain of
`initialize_app` (barbican.py:202, 213, 237, 272). -/
inductive AuthMode where
  | noAuth
  | token
  | password
  | invalid
deriving Repr, DecidableEq

/-- Which branch of `initialize_app` an option record selects, in the
source's order: no-auth, then token, then password, else invalid. -/
def selectAuthMode (args : Options) : AuthMode :=
  if args.no_auth then AuthMode.noAuth
  else if truthy args.os_auth_token then AuthMode.token
  else if password_guard args then AuthMode.password
  else AuthMode.invalid

/-- `Barbican.initialize_app` (barbican.py:188-274), starting from the
already-parsed option record. -/
def initialize_app (args : Options) : ResolveResult :=
  -- _assert_no_auth_and_auth_url_mutually_exclusive (barbican.py:125-129)
  if args.no_auth && truthy args.os_auth_url then
    ResolveResult.err ConfigError.conflictingOptions false
  else
    let api_version := args.os_identity_api_version
    if args.no_auth then
      if !(truthy args.endpoint &&
           (truthy args.os_tenant_id || truthy args.os_project_id)) then
        ResolveResult.err ConfigError.missingEndpointOrProjectId false
      else
        ResolveResult.ok (ClientHandle.direct args.endpoint
          (pyOr args.os_tenant_id args.os_project_id) (!args.insecure))
    else if truthy args.os_auth_token then
      if !truthy args.os_auth_url then
        ResolveResult.err ConfigError.missingAuthUrl false
      else
        match check_auth_arguments args api_version with
        | Except.error e => ResolveResult.err e false
        | Except.ok _ =>
          let kwargs := build_kwargs_based_on_version args api_version ++
            [("auth_url", args.os_auth_url), ("token", args.os_auth_token)]
          let auth := if isDefaultOrV3 api_version then Auth.v3Token kwargs
                      else Auth.v2Token kwargs
          ResolveResult.ok (ClientHandle.withSession
            ⟨auth, !args.insecure⟩ args.endpoint)
    else if password_guard args then
      let kwargs := [("auth_url", args.os_auth_url),
                     ("password", args.os_password)] ++
        optAdd "user_id" args.os_user_id ++
        optAdd "username" args.os_username
      if isDefaultOrV3 api_version then
        let kwargs := kwargs ++
          optAdd "project_id" args.os_project_id ++
          optAdd "project_name" args.os_project_name ++
          optAdd "user_domain_id" args.os_user_domain_id ++
          optAdd "user_domain_name" args.os_user_domain_name ++
          optAdd "project_domain_id" args.os_project_domain_id ++
          optAdd "project_domain_name" args.os_project_domain_name
        ResolveResult.ok (ClientHandle.withSession
          ⟨Auth.v3Password kwargs, !args.insecure⟩ args.endpoint)
      else
        let kwargs := kwargs ++
          optAdd "tenant_id" args.os_tenant_id ++
          optAdd "tenant_name" args.os_tenant_name
        ResolveResult.ok (ClientHandle.withSession
          ⟨Auth.v2Password kwargs, !args.insecure⟩ args.endpoint)
    else
      ResolveResult.err ConfigError.missingCredentials true

/-- Evaluating `truthy` on the unset (empty) value. -/
theorem truthy_empty : truthy "" = false := rfl

/-- The unset identity version resolves to the v3 branch. -/
theorem isDefaultOrV3_empty : isDefaultOrV3 "" = true := rfl

/-- Every entry produced by `optAdd key v` has key `key`. -/
theorem optAdd_fst {kv : String × String} {key v : String}
    (h : kv ∈ optAdd key v) : kv.1 = key := by
  unfold optAdd at h
  split at h
  · rcases List.mem_singleton.mp h with rfl; rfl
  · exact absurd h (List.not_mem_nil kv)

/-- C3: for every Options record with `no_auth` true and `auth_url` non-empty,
resolution fails with the conflicting-options error (so no ClientHandle is
produced), regardless of every other field. -/
theorem spec2proof_C3_conflicting_options (args : Options)
    (hna : args.no_auth = true) (hurl : truthy args.os_auth_url = true) :
    initialize_app args = ResolveResult.err ConfigError.conflictingOptions false := by
  simp [initialize_app, hna, hurl]

/-- Witness for C3 at a concrete input. -/
theorem spec2proof_C3_witness :
    initialize_app { no_auth := true, os_auth_url := "http://a" } =
      ResolveResult.err ConfigError.conflictingOptions false :=
  spec2proof_C3_conflicting_options
    { no_auth := true, os_auth_url := "http://a" } rfl (by decide)

/-- C2: for every Options record passing the mutual-exclusion check, the mode
is chosen by the first matching rule in the source's order: `no_auth` true
gives NoAuth (token and password fields ignored); otherwise a non-empty
`auth_token` gives Token (password fields ignored); otherwise the password
guard (`auth_url`, `user_id` or `username`, `password`, and one of
`tenant_name`/`tenant_id`/`project_name`/`project_id` all non-empty) gives
Password; otherwise Invalid. -/
theorem spec2proof_C2_mode_selection_order (args : Options)
    (hmx : ¬(args.no_auth = true ∧ truthy args.os_auth_url = true)) :
    (args.no_auth = true → selectAuthMode args = AuthMode.noAuth) ∧
    (args.no_auth = false → truthy args.os_auth_token = true →
      selectAuthMode args = AuthMode.token) ∧
    (args.no_auth = false → truthy args.os_auth_token = false →
      password_guard args = true → selectAuthMode args = AuthMode.password) ∧
    (args.no_auth = false → truthy args.os_auth_token = false →
      password_guard args = false → selectAuthMode args = AuthMode.invalid) :=
  ⟨fun h => by simp [selectAuthMode, h],
   fun h ht => by simp [selectAuthMode, h, ht],
   fun h ht hp => by simp [selectAuthMode, h, ht, hp],
   fun h ht hp => by simp [selectAuthMode, h, ht, hp]⟩

/-- Witness for C2: with `no_auth` set, token and password fields are ignored
and NoAuth is selected. -/
theorem spec2proof_C2_witness :
    selectAuthMode { no_auth := true, os_auth_token := "tok",
                     os_password := "pw", os_username := "user" } =
      AuthMode.noAuth :=
  (spec2proof_C2_mode_selection_order
    { no_auth := true, os_auth_token := "tok",
      os_password := "pw", os_username := "user" } (by decide)).1 rfl

/-- C6: with `no_auth` true and `auth_url` unset, resolution succeeds exactly
when `endpoint` and one of `tenant_id`/`project_id` are non-empty, producing
the client directly from endpoint, project id and `verify = NOT insecure`;
otherwise it fails with the missing-endpoint-or-project-id error. -/
theorem spec2proof_C6_noauth_resolution (args : Options)
    (hna : args.no_auth = true) (hurl : truthy args.os_auth_url = false) :
    (truthy args.endpoint = true →
      (truthy args.os_tenant_id = true ∨ truthy args.os_project_id = true) →
      initialize_app args = ResolveResult.ok (ClientHandle.direct args.endpoint
        (pyOr args.os_tenant_id args.os_project_id) (!args.insecure))) ∧
    ((truthy args.endpoint = false ∨
      (truthy args.os_tenant_id = false ∧ truthy args.os_project_id = false)) →
      initialize_app args =
        ResolveResult.err ConfigError.missingEndpointOrProjectId false) := by
  constructor
  · intro hep hid
    rcases hid with h | h <;> simp [initialize_app, hna, hurl, hep, h]
  · intro h
    rcases h with h | ⟨h1, h2⟩
    · simp [initialize_app, hna, hurl, h]
    · simp [initialize_app, hna, hurl, h1, h2]

/-- Witness for C6 at a concrete input. -/
theorem spec2proof_C6_witness :
    initialize_app { no_auth := true, endpoint := "http://e",
                     os_project_id := "pid" } =
      ResolveResult.ok (ClientHandle.direct "http://e" "pid" true) :=
  (spec2proof_C6_noauth_resolution
    { no_auth := true, endpoint := "http://e", os_project_id := "pid" }
    rfl (by decide)).1 (by decide) (Or.inr (by decide))

/-- C7 counterexample: an Options record with a non-empty `auth_token` and an
unset `auth_url` for which resolution does not fail with the missing-auth-url
error — `no_auth` is set, so the no-auth branch wins and resolution succeeds. -/
theorem spec2proof_C7_counterexample :
    initialize_app { no_auth := true, os_auth_token := "tok",
                     endpoint := "http://e", os_tenant_id := "tid" } ≠
      ResolveResult.err ConfigError.missingAuthUrl false ∧
    initialize_app { no_auth := true, os_auth_token := "tok",
                     endpoint := "http://e", os_tenant_id := "tid" } =
      ResolveResult.ok (ClientHandle.direct "http://e" "tid" true) := by
  decide

/-- C7 (amended): for all Options with `no_auth` false, `auth_token` non-empty
and `auth_url` unset, resolution fails with the missing-auth-url error. -/
theorem spec2proof_C7_missing_auth_url (args : Options)
    (hna : args.no_auth = false)
    (ht : truthy args.os_auth_token = true)
    (hu : truthy args.os_auth_url = false) :
    initialize_app args = ResolveResult.err ConfigError.missingAuthUrl false := by
  simp [initialize_app, hna, ht, hu]

/-- Witness for the amended C7 at a concrete input. -/
theorem spec2proof_C7_witness :
    initialize_app { os_auth_token := "tok" } =
      ResolveResult.err ConfigError.missingAuthUrl false :=
  spec2proof_C7_missing_auth_url { os_auth_token := "tok" }
    rfl (by decide) (by decide)

/-- C8: whenever no mode's required fields are satisfied (AuthMode Invalid),
the run fails with the missing-credentials error after writing the usage text
(the `true` flag), and no ClientHandle is produced. -/
theorem spec2proof_C8_invalid_mode (args : Options)
    (h : selectAuthMode args = AuthMode.invalid) :
    initialize_app args = ResolveResult.err ConfigError.missingCredentials true := by
  unfold selectAuthMode at h
  by_cases hna : args.no_auth
  · simp [hna] at h
  · by_cases ht : truthy args.os_auth_token
    · simp [hna, ht] at h
    · by_cases hpw : password_guard args
      · simp [hna, ht, hpw] at h
      · simp [initialize_app, hna, ht, hpw]

/-- Witness for C8: the all-defaults record selects Invalid and fails with the
missing-credentials error after usage output. -/
theorem spec2proof_C8_witness :
    initialize_app ({} : Options) =
      ResolveResult.err ConfigError.missingCredentials true :=
  spec2proof_C8_invalid_mode ({} : Options) (by decide)

/-- C9: in the no-auth branch, when both `tenant_id` and `project_id` are
non-empty the client's project id is taken from `tenant_id`. -/
theorem spec2proof_C9_tenant_id_precedence (args : Options)
    (hna : args.no_auth = true) (hurl : truthy args.os_auth_url = false)
    (hep : truthy args.endpoint = true)
    (htid : truthy args.os_tenant_id = true)
    (hpid : truthy args.os_project_id = true) :
    initialize_app args = ResolveResult.ok
      (ClientHandle.direct args.endpoint args.os_tenant_id (!args.insecure)) := by
  simp [initialize_app, pyOr, hna, hurl, hep, htid]

/-- Witness for C9 at a concrete input with distinct tenant and project ids. -/
theorem spec2proof_C9_witness :
    initialize_app { no_auth := true, endpoint := "http://e",
                     os_tenant_id := "tid", os_project_id := "pid" } =
      ResolveResult.ok (ClientHandle.direct "http://e" "tid" true) :=
  spec2proof_C9_tenant_id_precedence
    { no_auth := true, endpoint := "http://e",
      os_tenant_id := "tid", os_project_id := "pid" }
    rfl (by decide) (by decide) (by decide) (by decide)

/-- C4: in the token branch (`no_auth` false, `auth_token` and `auth_url`
non-empty), the identity-combination check fails with the diagnostic naming
the required combination exactly when, for identity version "3.0" or unset,
none of {project_id}, {project_name and project_domain_name},
{project_name and project_domain_id} holds, and, for any other version,
neither tenant_id nor tenant_name is non-empty; when a required combination
holds, resolution succeeds. -/
theorem spec2proof_C4_token_identity_check (args : Options)
    (hna : args.no_auth = false)
    (ht : truthy args.os_auth_token = true)
    (hu : truthy args.os_auth_url = true) :
    (isDefaultOrV3 args.os_identity_api_version = true →
      (v3_arg_combinations args = false →
        initialize_app args =
          ResolveResult.err ConfigError.missingV3Combination false) ∧
      (v3_arg_combinations args = true →
        ∃ c, initialize_app args = ResolveResult.ok c)) ∧
    (isDefaultOrV3 args.os_identity_api_version = false →
      (v2_arg_combinations args = false →
        initialize_app args =
          ResolveResult.err ConfigError.missingV2Combination false) ∧
      (v2_arg_combinations args = true →
        ∃ c, initialize_app args = ResolveResult.ok c)) := by
  constructor
  · intro hv
    constructor
    · intro hc
      simp [initialize_app, check_auth_arguments, hna, ht, hu, hv, hc]
    · intro hc
      refine ⟨ClientHandle.withSession
        ⟨Auth.v3Token (build_kwargs_based_on_version args
            args.os_identity_api_version ++
          [("auth_url", args.os_auth_url), ("token", args.os_auth_token)]),
         !args.insecure⟩ args.endpoint, ?_⟩
      simp [initialize_app, check_auth_arguments, hna, ht, hu, hv, hc]
  · intro hv
    constructor
    · intro hc
      simp [initialize_app, check_auth_arguments, hna, ht, hu, hv, hc]
    · intro hc
      refine ⟨ClientHandle.withSession
        ⟨Auth.v2Token (build_kwargs_based_on_version args
            args.os_identity_api_version ++
          [("auth_url", args.os_auth_url), ("token", args.os_auth_token)]),
         !args.insecure⟩ args.endpoint, ?_⟩
      simp [initialize_app, check_auth_arguments, hna, ht, hu, hv, hc]

/-- Witness for C4: token and auth url set, no project identification, default
(v3) version, fails naming the v3 combination. -/
theorem spec2proof_C4_witness :
    initialize_app { os_auth_token := "tok", os_auth_url := "http://a" } =
      ResolveResult.err ConfigError.missingV3Combination false :=
  ((spec2proof_C4_token_identity_check
      { os_auth_token := "tok", os_auth_url := "http://a" }
      rfl (by decide) (by decide)).1 (by decide)).1 (by decide)

/-- C5: with exactly `auth_url`, `username`, `password` and `project_name`
non-empty, every other credential field unset and the identity version unset,
resolution succeeds in the password branch and the keyword set passed to the
v3 password credential is exactly
`[auth_url, password, username, project_name]`. -/
theorem spec2proof_C5_password_default_kwargs (u n p pn ep : String) (ins : Bool)
    (hu : truthy u = true) (hn : truthy n = true)
    (hp : truthy p = true) (hpn : truthy pn = true) :
    initialize_app { os_auth_url := u, os_username := n, os_password := p,
                     os_project_name := pn, endpoint := ep, insecure := ins } =
      ResolveResult.ok (ClientHandle.withSession
        ⟨Auth.v3Password [("auth_url", u), ("password", p),
                          ("username", n), ("project_name", pn)], !ins⟩ ep) := by
  simp [initialize_app, password_guard, optAdd, truthy_empty, isDefaultOrV3_empty,
    hu, hn, hp, hpn]

/-- Witness for C5 at a concrete input. -/
theorem spec2proof_C5_witness :
    initialize_app { os_auth_url := "http://a", os_username := "user",
                     os_password := "pw", os_project_name := "proj",
                     endpoint := "http://e", insecure := false } =
      ResolveResult.ok (ClientHandle.withSession
        ⟨Auth.v3Password [("auth_url", "http://a"), ("password", "pw"),
                          ("username", "user"), ("project_name", "proj")],
         true⟩ "http://e") :=
  spec2proof_C5_password_default_kwargs "http://a" "user" "pw" "proj" "http://e"
    false (by decide) (by decide) (by decide) (by decide)

/-- C10: with an identity version other than "3.0", tenant fields unset, and
the only tenant-or-project identification coming from `project_name` or
`project_id`, the password guard still selects Password mode, but the keyword
set handed to the v2 password credential contains no tenant or project key at
all: every key is one of auth_url, password, user_id, username. -/
theorem spec2proof_C10_v2_password_drops_project (args : Options)
    (hna : args.no_auth = false)
    (ht : truthy args.os_auth_token = false)
    (hurl : truthy args.os_auth_url = true)
    (huser : truthy args.os_user_id = true ∨ truthy args.os_username = true)
    (hpw : truthy args.os_password = true)
    (htid : truthy args.os_tenant_id = false)
    (htn : truthy args.os_tenant_name = false)
    (hproj : truthy args.os_project_name = true ∨ truthy args.os_project_id = true)
    (hv : isDefaultOrV3 args.os_identity_api_version = false) :
    selectAuthMode args = AuthMode.password ∧
    ∃ kw, initialize_app args = ResolveResult.ok (ClientHandle.withSession
        ⟨Auth.v2Password kw, !args.insecure⟩ args.endpoint) ∧
      ∀ kv ∈ kw, kv.1 = "auth_url" ∨ kv.1 = "password" ∨
        kv.1 = "user_id" ∨ kv.1 = "username" := by
  have hpg : password_guard args = true := by
    rcases huser with h1 | h1 <;> rcases hproj with h2 | h2 <;>
      simp [password_guard, hurl, hpw, h1, h2]
  refine ⟨by simp [selectAuthMode, hna, ht, hpg], ?_⟩
  refine ⟨[("auth_url", args.os_auth_url), ("password", args.os_password)] ++
    optAdd "user_id" args.os_user_id ++ optAdd "username" args.os_username,
    ?_, ?_⟩
  · simp [initialize_app, optAdd, hna, ht, hurl, hpg, hv, htid, htn]
  · intro kv hkv
    rcases List.mem_append.mp hkv with hkv | hkv
    · rcases List.mem_append.mp hkv with hkv | hkv
      · rcases List.mem_cons.mp hkv with rfl | hkv
        · exact Or.inl rfl
        · rcases List.mem_singleton.mp hkv with rfl
          exact Or.inr (Or.inl rfl)
      · exact Or.inr (Or.inr (Or.inl (optAdd_fst hkv)))
    · exact Or.inr (Or.inr (Or.inr (optAdd_fst hkv)))

/-- Witness for C10 at a concrete input with version "2.0" and only
project_name as tenant-or-project identification. -/
theorem spec2proof_C10_witness :
    selectAuthMode { os_identity_api_version := "2.0",
                     os_auth_url := "http://a", os_username := "user",
                     os_password := "pw", os_project_name := "proj" } =
      AuthMode.password :=
  (spec2proof_C10_v2_password_drops_project
    { os_identity_api_version := "2.0", os_auth_url := "http://a",
      os_username := "user", os_password := "pw", os_project_name := "proj" }
    rfl (by decide) (by decide) (Or.inr (by decide)) (by decide)
    (by decide) (by decide) (Or.inl (by decide)) (by decide)).1

/-- C1 (code bug): in the token branch with the default (v3) identity version,
the source populates the `project_domain_id` keyword from `os_project_id` and
`project_domain_name` from `os_project_name` (barbican.py:176-177), not from
the `os-project-domain-id` / `os-project-domain-name` options: at an input
whose domain options hold distinct values "PDID"/"PDN", the constructed
keyword set carries "pid"/"pn" under the domain keys and the values
"PDID"/"PDN" appear nowhere. -/
theorem spec2proof_C1_project_domain_mis_sourced :
    initialize_app { os_auth_token := "tok", os_auth_url := "http://a",
                     os_project_id := "pid", os_project_name := "pn",
                     os_project_domain_id := "PDID",
                     os_project_domain_name := "PDN" } =
      ResolveResult.ok (ClientHandle.withSession
        ⟨Auth.v3Token [("project_id", "pid"), ("project_name", "pn"),
                       ("project_domain_id", "pid"),
                       ("project_domain_name", "pn"),
                       ("auth_url", "http://a"), ("token", "tok")], true⟩ "") ∧
    ("project_domain_id", "PDID") ∉
      build_kwargs_based_on_version
        { os_auth_token := "tok", os_auth_url := "http://a",
          os_project_id := "pid", os_project_name := "pn",
          os_project_domain_id := "PDID", os_project_domain_name := "PDN" } "" ∧
    ("project_domain_name", "PDN") ∉
      build_kwargs_based_on_version
        { os_auth_token := "tok", os_auth_url := "http://a",
          os_project_id := "pid", os_project_name := "pn",
          os_project_domain_id := "PDID", os_project_domain_name := "PDN" } "" := by
  decide

end Barbican
